import Mathlib

/-!
Shallow embedding of the fireworks particle simulation in src/main.cpp.

Floating point arithmetic is modelled exactly over a linear ordered field,
instantiated at ℚ for the executable claims and at ℝ where the angle
functions (M_PI, glm::cos, glm::sin) are needed.  The C library rand() is
modelled as an arbitrary stream of naturals reduced into [0, RAND_MAX],
consumed one value per call in program order.  The simulation constants of
main.cpp are gathered into a Config record (with srcConfig holding the
literal source values) so that the claims about malformed configurations
can quantify over configurations.
-/

namespace Fireworks

/-- Three component vector, modelling glm::vec3. -/
structure Vec3 (R : Type) where
  x : R
  y : R
  z : R
  deriving DecidableEq

/-- Four component vector, modelling glm::vec4 used as an rgba colour;
the w component is the alpha channel. -/
structure Vec4 (R : Type) where
  x : R
  y : R
  z : R
  w : R
  deriving DecidableEq

variable {R : Type} [LinearOrderedField R]

instance : Add (Vec3 R) :=
  ⟨fun a b => ⟨a.x + b.x, a.y + b.y, a.z + b.z⟩⟩

instance : HMul (Vec3 R) R (Vec3 R) :=
  ⟨fun v s => ⟨v.x * s, v.y * s, v.z * s⟩⟩

instance : HMul R (Vec3 R) (Vec3 R) :=
  ⟨fun s v => ⟨s * v.x, s * v.y, s * v.z⟩⟩

/-- glm vector plus scalar adds the scalar to every component (used by
`pos + random` in both respawn functions). -/
def Vec3.addScalar (v : Vec3 R) (s : R) : Vec3 R :=
  ⟨v.x + s, v.y + s, v.z + s⟩

/-- The simulation constants of main.cpp (lines 19 to 50), as a record. -/
structure Config (R : Type) where
  GRAVITY : Vec3 R
  NUM_FIREWORKS : ℕ
  MIN_PARTICLES : ℕ
  MAX_PARTICLES : ℕ
  NUM_TRAIL_PARTICLES : ℕ
  MIN_SCALE : R
  SCALE_RANGE : ℕ
  MAX_INIT_X_VEL : ℤ
  MIN_INIT_X_VEL : ℤ
  MAX_INIT_Y_VEL : ℤ
  MIN_INIT_Y_VEL : ℤ
  MIN_MAGNITUDE : ℤ
  MAX_MAGNITUDE : ℤ
  EXPLOSION_LIFE_DECREASE_RATE : R
  TRAIL_MIN_DECREASE_RATE : R
  TRAIL_MAX_DECREASE_RATE : R
  NUM_OUTER_CIRCLE_VERTICES : ℕ
  WORLD_WIDTH : ℕ

/-- The literal constant values of main.cpp lines 19 to 50. -/
def srcConfig : Config R where
  GRAVITY := ⟨0, -200, 0⟩
  NUM_FIREWORKS := 10
  MIN_PARTICLES := 30
  MAX_PARTICLES := 50
  NUM_TRAIL_PARTICLES := 15
  MIN_SCALE := 1
  SCALE_RANGE := 2
  MAX_INIT_X_VEL := 20
  MIN_INIT_X_VEL := -20
  MAX_INIT_Y_VEL := 500
  MIN_INIT_Y_VEL := 300
  MIN_MAGNITUDE := 20
  MAX_MAGNITUDE := 200
  EXPLOSION_LIFE_DECREASE_RATE := 1 / 2
  TRAIL_MIN_DECREASE_RATE := 3
  TRAIL_MAX_DECREASE_RATE := 6
  NUM_OUTER_CIRCLE_VERTICES := 50
  WORLD_WIDTH := 800

/-- Upper bound of the values returned by the C library rand() (glibc). -/
def RAND_MAX : ℕ := 2147483647

/-- State of the process wide pseudo random source: an arbitrary stream of
naturals together with a cursor.  Each rand() call reads one stream element
reduced into [0, RAND_MAX] and advances the cursor. -/
structure RState where
  stream : ℕ → ℕ
  idx : ℕ

/-- One rand() call. -/
def RState.next (r : RState) : ℕ × RState :=
  (r.stream r.idx % (RAND_MAX + 1), ⟨r.stream, r.idx + 1⟩)

/-- TrailParticle (main.cpp line 87): the Particle base fields plus the per
particle decay rate.  The base Particle declares `float life = 1.0`. -/
structure TrailParticle (R : Type) where
  pos : Vec3 R
  vel : Vec3 R
  color : Vec4 R
  life : R
  scale : R
  lifeDecreaseRate : R
  deriving DecidableEq

/-- The constructor TrailParticle(pos, vel, color, scale, lifeDecreaseRate)
(main.cpp line 90); life takes the Particle default 1.0. -/
def TrailParticle.create (pos vel : Vec3 R) (color : Vec4 R)
    (scale lifeDecreaseRate : R) : TrailParticle R :=
  ⟨pos, vel, color, 1, scale, lifeDecreaseRate⟩

/-- TrailParticle::update(dt, sourceVel, sourceLife) (main.cpp lines 93-99):
copy the source velocity, advance the position by life * vel * dt, clamp
life to the source life, publish life into the alpha channel, then decay
life. -/
def TrailParticle.update (p : TrailParticle R) (dt : R) (sourceVel : Vec3 R)
    (sourceLife : R) : TrailParticle R :=
  let vel := sourceVel
  let pos := p.pos + p.life * vel * dt
  let life := if p.life > sourceLife then sourceLife else p.life
  let color := { p.color with w := life }
  { p with vel := vel, pos := pos, color := color,
           life := life - p.lifeDecreaseRate * dt }

/-- ExplosionParticle (main.cpp line 103): Particle fields plus the captured
original velocity and the owned trail particles. -/
structure ExplosionParticle (R : Type) where
  pos : Vec3 R
  vel : Vec3 R
  color : Vec4 R
  life : R
  scale : R
  origVel : Vec3 R
  trailParticles : List (TrailParticle R)
  deriving DecidableEq

/-- The loop in the ExplosionParticle constructor body (main.cpp lines
109-113): one rand() per trail particle for its decay rate; each trail
particle starts at the explosion particle position with a tenth of its
velocity, scale 1 and life 1. -/
def mkExplosionTrails (cfg : Config R) (pos vel : Vec3 R) (color : Vec4 R) :
    ℕ → RState → List (TrailParticle R) × RState
  | 0, r => ([], r)
  | n + 1, r =>
      let a := r.next.1
      let r1 := r.next.2
      let lifeDecrease := (a : R) / (RAND_MAX : R) *
        (cfg.TRAIL_MAX_DECREASE_RATE - cfg.TRAIL_MIN_DECREASE_RATE) +
        cfg.TRAIL_MIN_DECREASE_RATE
      let particleVel := vel * ((1 : R) / 10)
      let rest := mkExplosionTrails cfg pos vel color n r1
      (TrailParticle.create pos particleVel color 1 lifeDecrease :: rest.1, rest.2)

/-- The constructor ExplosionParticle(pos, vel, color, scale) (main.cpp
lines 107-114): capture origVel := vel and build NUM_TRAIL_PARTICLES trail
particles. -/
def ExplosionParticle.create (cfg : Config R) (pos vel : Vec3 R)
    (color : Vec4 R) (scale : R) (r : RState) : ExplosionParticle R × RState :=
  let trails := mkExplosionTrails cfg pos vel color cfg.NUM_TRAIL_PARTICLES r
  (⟨pos, vel, color, 1, scale, vel, trails.1⟩, trails.2)

/-- ExplosionParticle::respawnTrailParticle (main.cpp lines 117-122): one
rand() produces a scalar jitter ((rand() % 100) - 50) / 10 added to every
axis of the owner position; life is restored to 1 and the velocity is the
owner velocity times the fixed factor 0.1. -/
def ExplosionParticle.respawnTrailParticle (ep : ExplosionParticle R)
    (p : TrailParticle R) (r : RState) : TrailParticle R × RState :=
  let n := r.next.1
  let r1 := r.next.2
  let random : R := (((n % 100 : ℕ) : R) - 50) / 10
  ({ p with life := 1,
            pos := ep.pos.addScalar random,
            vel := ep.vel * ((1 : R) / 10) }, r1)

/-- The trail loop of ExplosionParticle::update (main.cpp lines 125-128):
each owned trail particle is updated with the owner's current velocity and
life as source snapshot, and respawned when its updated life is at most 0.
The owner fields ep.pos, ep.vel, ep.life are not written inside this loop,
so every iteration reads the pre-self-update values. -/
def ExplosionParticle.updateTrailLoop (ep : ExplosionParticle R) (dt : R) :
    List (TrailParticle R) → RState → List (TrailParticle R) × RState
  | [], r => ([], r)
  | p :: ps, r =>
      let p1 := p.update dt ep.vel ep.life
      let step := if p1.life ≤ 0 then ep.respawnTrailParticle p1 r else (p1, r)
      let rest := ExplosionParticle.updateTrailLoop ep dt ps step.2
      (step.1 :: rest.1, rest.2)

/-- ExplosionParticle::update(dt) (main.cpp lines 124-134): first the trail
loop, then the self update vel := life * origVel * dt, pos += vel,
alpha := life, life -= EXPLOSION_LIFE_DECREASE_RATE * dt. -/
def ExplosionParticle.update (cfg : Config R) (ep : ExplosionParticle R)
    (dt : R) (r : RState) : ExplosionParticle R × RState :=
  let trails := ep.updateTrailLoop dt ep.trailParticles r
  let vel := ep.life * ep.origVel * dt
  let pos := ep.pos + vel
  let color := { ep.color with w := ep.life }
  let life := ep.life - cfg.EXPLOSION_LIFE_DECREASE_RATE * dt
  ({ ep with trailParticles := trails.1, vel := vel, pos := pos,
             color := color, life := life }, trails.2)

/-- Firework (main.cpp line 143). -/
structure Firework (R : Type) where
  pos : Vec3 R
  vel : Vec3 R
  color : Vec4 R
  scale : R
  exploded : Bool
  numParticles : ℕ
  trailParticles : List (TrailParticle R)
  explosionParticles : List (ExplosionParticle R)
  deriving DecidableEq

/-- Firework::respawnParticle (main.cpp lines 157-162): the same single
scalar jitter formula as the explosion respawn, then a second rand() for
the velocity factor rand() / RAND_MAX * 0.25 + 0.75 applied to the
firework velocity. -/
def Firework.respawnParticle (fw : Firework R) (p : TrailParticle R)
    (r : RState) : TrailParticle R × RState :=
  let n := r.next.1
  let r1 := r.next.2
  let random : R := (((n % 100 : ℕ) : R) - 50) / 10
  let m := r1.next.1
  let r2 := r1.next.2
  ({ p with life := 1,
            pos := fw.pos.addScalar random,
            vel := fw.vel * ((m : R) / (RAND_MAX : R) * (1 / 4) + 3 / 4) }, r2)

/-- Firework::randomiseColor (main.cpp lines 164-170): three rand() calls,
each channel rand() / RAND_MAX * 0.75 + 0.25, alpha 1. -/
def Firework.randomiseColor (r : RState) : Vec4 R × RState :=
  let a := r.next.1
  let r1 := r.next.2
  let b := r1.next.1
  let r2 := r1.next.2
  let c := r2.next.1
  let r3 := r2.next.2
  (⟨(a : R) / (RAND_MAX : R) * (3 / 4) + 1 / 4,
    (b : R) / (RAND_MAX : R) * (3 / 4) + 1 / 4,
    (c : R) / (RAND_MAX : R) * (3 / 4) + 1 / 4, 1⟩, r3)

/-- The loop at the end of Firework::reset (main.cpp lines 186-190): two
rand() calls per rocket trail particle, one for the decay rate and one for
the velocity factor; scale is the literal 1 and life the default 1. -/
def mkRocketTrails (cfg : Config R) (pos vel : Vec3 R) (color : Vec4 R) :
    ℕ → RState → List (TrailParticle R) × RState
  | 0, r => ([], r)
  | n + 1, r =>
      let a := r.next.1
      let r1 := r.next.2
      let lifeDecrease := (a : R) / (RAND_MAX : R) *
        (cfg.TRAIL_MAX_DECREASE_RATE - cfg.TRAIL_MIN_DECREASE_RATE) +
        cfg.TRAIL_MIN_DECREASE_RATE
      let b := r1.next.1
      let r2 := r1.next.2
      let particleVel := vel * ((b : R) / (RAND_MAX : R) * (1 / 4) + 3 / 4)
      let rest := mkRocketTrails cfg pos vel color n r2
      (TrailParticle.create pos particleVel color 1 lifeDecrease :: rest.1, rest.2)

/-- Firework::reset (main.cpp lines 173-191): clear both particle
collections, drop the exploded flag, re-roll the particle count, spawn
position, launch velocity, scale and colour, and regenerate the rocket
trail.  Every field of the firework is overwritten, so the result does not
depend on the previous state. -/
def Firework.reset (cfg : Config R) (r : RState) : Firework R × RState :=
  let n1 := r.next.1
  let r1 := r.next.2
  let numParticles := n1 % (cfg.MAX_PARTICLES - cfg.MIN_PARTICLES) + cfg.MIN_PARTICLES
  let n2 := r1.next.1
  let r2 := r1.next.2
  let pos : Vec3 R := ⟨((n2 % cfg.WORLD_WIDTH : ℕ) : R), 0, 0⟩
  let n3 := r2.next.1
  let r3 := r2.next.2
  let n4 := r3.next.1
  let r4 := r3.next.2
  let vel : Vec3 R :=
    ⟨(((n3 : ℤ) % (cfg.MAX_INIT_X_VEL - cfg.MIN_INIT_X_VEL) + cfg.MIN_INIT_X_VEL : ℤ) : R),
     (((n4 : ℤ) % (cfg.MAX_INIT_Y_VEL - cfg.MIN_INIT_Y_VEL) + cfg.MIN_INIT_Y_VEL : ℤ) : R), 0⟩
  let n5 := r4.next.1
  let r5 := r4.next.2
  let scale := ((n5 % cfg.SCALE_RANGE : ℕ) : R) + cfg.MIN_SCALE
  let color : Vec4 R × RState := Firework.randomiseColor r5
  let trails := mkRocketTrails cfg pos vel color.1 cfg.NUM_TRAIL_PARTICLES color.2
  (⟨pos, vel, color.1, scale, false, numParticles, trails.1, []⟩, trails.2)

/-- Parameters supplied by the external math library: M_PI, glm::cos and
glm::sin, abstracted so that the simulation state can live in any linear
ordered field; realEnv instantiates them with the genuine real functions. -/
structure Env (R : Type) where
  pi : R
  cos : R → R
  sin : R → R

/-- The real instantiation of the math library. -/
noncomputable def realEnv : Env ℝ :=
  ⟨Real.pi, Real.cos, Real.sin⟩

/-- The explosion creation loop of Firework::update (main.cpp lines
212-220): per particle one rand() for the angle index below
NUM_OUTER_CIRCLE_VERTICES, one for the integer magnitude, one for the
scale, then the ExplosionParticle constructor (which consumes the trail
rand() calls). -/
def mkExplosionParticles (cfg : Config R) (env : Env R) (pos : Vec3 R)
    (color : Vec4 R) : ℕ → RState → List (ExplosionParticle R) × RState
  | 0, r => ([], r)
  | n + 1, r =>
      let theta := env.pi * 2 / (cfg.NUM_OUTER_CIRCLE_VERTICES : R)
      let k := r.next.1
      let r1 := r.next.2
      let randTheta := ((k % cfg.NUM_OUTER_CIRCLE_VERTICES : ℕ) : R) * theta
      let m := r1.next.1
      let r2 := r1.next.2
      let mag : ℤ := (m : ℤ) % (cfg.MAX_MAGNITUDE - cfg.MIN_MAGNITUDE) + cfg.MIN_MAGNITUDE
      let particleVel : Vec3 R := ⟨env.cos randTheta * (mag : R), env.sin randTheta * (mag : R), 0⟩
      let s := r2.next.1
      let r3 := r2.next.2
      let scale := ((s % cfg.SCALE_RANGE : ℕ) : R) + cfg.MIN_SCALE
      let ep := ExplosionParticle.create cfg pos particleVel color scale r3
      let rest := mkExplosionParticles cfg env pos color n ep.2
      (ep.1 :: rest.1, rest.2)

/-- The rocket trail loop of Firework::update (main.cpp lines 203-206):
each trail particle is updated with the already integrated firework
velocity and a fixed source life of 1, and respawned when its updated life
is at most 0. -/
def Firework.updateTrailLoop (fw : Firework R) (dt : R) :
    List (TrailParticle R) → RState → List (TrailParticle R) × RState
  | [], r => ([], r)
  | p :: ps, r =>
      let p1 := p.update dt fw.vel 1
      let step := if p1.life ≤ 0 then fw.respawnParticle p1 r else (p1, r)
      let rest := Firework.updateTrailLoop fw dt ps step.2
      (step.1 :: rest.1, rest.2)

/-- The explosion loop of Firework::update (main.cpp lines 194-198) without
the reset: every explosion particle is updated in order. -/
def updateExplosionLoop (cfg : Config R) (dt : R) :
    List (ExplosionParticle R) → RState → List (ExplosionParticle R) × RState
  | [], r => ([], r)
  | p :: ps, r =>
      let p1 := ExplosionParticle.update cfg p dt r
      let rest := updateExplosionLoop cfg dt ps p1.2
      (p1.1 :: rest.1, rest.2)

/-- Firework::update (main.cpp lines 193-223).  In the exploded branch the
source calls reset() from inside the range-for as soon as an updated
particle's life is at most 0; reset() clears the vector being iterated
(invalidating the loop iterators), so the observable outcome is: the final
state is a freshly reset firework exactly when some updated particle
expired, and the updated particle list otherwise.  The model performs the
loop over the snapshot list and then applies reset under the same
condition.  In the rising branch: integrate gravity, advance the position,
run the trail loop with the new velocity and source life 1, and explode
when the vertical velocity has become negative. -/
def Firework.update (cfg : Config R) (env : Env R) (fw : Firework R)
    (dt : R) (r : RState) : Firework R × RState :=
  if fw.exploded then
    let eps := updateExplosionLoop cfg dt fw.explosionParticles r
    if ∃ p ∈ eps.1, p.life ≤ 0 then Firework.reset cfg eps.2
    else ({ fw with explosionParticles := eps.1 }, eps.2)
  else
    let vel := fw.vel + cfg.GRAVITY * dt
    let pos := fw.pos + vel * dt
    let fw1 := { fw with vel := vel, pos := pos }
    let trails := fw1.updateTrailLoop dt fw.trailParticles r
    if vel.y < 0 then
      let eps := mkExplosionParticles cfg env pos fw.color fw.numParticles trails.2
      ({ fw1 with exploded := true, trailParticles := [],
                  explosionParticles := eps.1 }, eps.2)
    else ({ fw1 with trailParticles := trails.1 }, trails.2)

/-- initFireworks (main.cpp lines 367-371): push NUM_FIREWORKS fireworks,
each constructed through Firework::reset; no validation of the
configuration happens anywhere. -/
def mkFireworks (cfg : Config R) : ℕ → RState → List (Firework R) × RState
  | 0, r => ([], r)
  | n + 1, r =>
      let fw := Firework.reset cfg r
      let rest := mkFireworks cfg n fw.2
      (fw.1 :: rest.1, rest.2)

/-- initFireworks (main.cpp lines 367-371). -/
def initFireworks (cfg : Config R) (r : RState) : List (Firework R) × RState :=
  mkFireworks cfg cfg.NUM_FIREWORKS r

/-- Iterated Firework::update over a list of frame deltas (the per frame
calls made by update(dt) in the main loop). -/
def Firework.steps (cfg : Config R) (env : Env R) :
    List R → Firework R → RState → Firework R × RState
  | [], fw, r => (fw, r)
  | dt :: dts, fw, r =>
      let fw1 := Firework.update cfg env fw dt r
      Firework.steps cfg env dts fw1.1 fw1.2

/-- An all zero rand() stream, used for concrete runs. -/
def rzero : RState :=
  ⟨fun _ => 0, 0⟩

/-- A placeholder math library for claims whose truth does not depend on
the angle functions (they are only reached when an explosion is created,
and only affect the created velocities). -/
def envQ : Env ℚ :=
  ⟨0, fun _ => 0, fun _ => 0⟩

/-- A concrete trail particle: full life, unit decay rate. -/
def tpEx : TrailParticle ℚ :=
  ⟨⟨0, 0, 0⟩, ⟨0, 0, 0⟩, ⟨1, 1, 1, 1⟩, 1, 1, 1⟩

/-- A concrete explosion particle at full life with no trail particles. -/
def epEx : ExplosionParticle ℚ :=
  ⟨⟨0, 0, 0⟩, ⟨0, 0, 0⟩, ⟨1, 1, 1, 1⟩, 1, 1, ⟨0, 0, 0⟩, []⟩

/-- A concrete explosion particle whose life is already exhausted. -/
def epZero : ExplosionParticle ℚ :=
  ⟨⟨0, 0, 0⟩, ⟨0, 0, 0⟩, ⟨1, 1, 1, 1⟩, 0, 1, ⟨0, 0, 0⟩, []⟩

/-- A concrete rising rocket with vertical velocity 400, as in the apex
scenario of the specification. -/
def fwRocket : Firework ℚ :=
  ⟨⟨0, 0, 0⟩, ⟨0, 400, 0⟩, ⟨1, 1, 1, 1⟩, 1, false, 30, [], []⟩

/-- The same rising rocket over the reals, for the apex transition claim. -/
def fwRocketR : Firework ℝ :=
  ⟨⟨0, 0, 0⟩, ⟨0, 400, 0⟩, ⟨1, 1, 1, 1⟩, 1, false, 30, [], []⟩

/-- A concrete exploded firework owning one exhausted explosion particle. -/
def fwBurst : Firework ℚ :=
  ⟨⟨0, 0, 0⟩, ⟨0, 0, 0⟩, ⟨1, 1, 1, 1⟩, 1, true, 30, [], [epZero]⟩

/-- A malformed configuration: particle count range with min above max and
a non positive explosion decay rate. -/
def cfgBad : Config ℚ :=
  { (srcConfig : Config ℚ) with
      MIN_PARTICLES := 50
      MAX_PARTICLES := 30
      EXPLOSION_LIFE_DECREASE_RATE := -1 }

/-- The two legal shapes of a firework after its first reset: a rising
rocket with a nonempty trail and no explosion particles (and a positive
explosion target), or an exploded firework with an empty trail and a
nonempty explosion collection. -/
def GoodFirework (fw : Firework ℚ) : Prop :=
  (fw.exploded = false ∧ fw.trailParticles ≠ [] ∧ fw.explosionParticles = []
      ∧ 1 ≤ fw.numParticles)
  ∨ (fw.exploded = true ∧ fw.trailParticles = [] ∧ fw.explosionParticles ≠ [])

/-! ### Helper lemmas about the loops -/

theorem Vec3.add_def (a b : Vec3 R) : a + b = ⟨a.x + b.x, a.y + b.y, a.z + b.z⟩ :=
  rfl

theorem Vec3.mul_scalar_def (v : Vec3 R) (s : R) : v * s = ⟨v.x * s, v.y * s, v.z * s⟩ :=
  rfl

theorem Vec3.scalar_mul_def (s : R) (v : Vec3 R) : s * v = ⟨s * v.x, s * v.y, s * v.z⟩ :=
  rfl

theorem RState.next_le (r : RState) : (r.next).1 ≤ RAND_MAX :=
  Nat.lt_succ_iff.mp (Nat.mod_lt _ (by decide))


theorem mkRocketTrails_length (cfg : Config R) (pos vel : Vec3 R)
    (color : Vec4 R) : ∀ (n : ℕ) (r : RState),
    ((mkRocketTrails cfg pos vel color n r).1).length = n := by
  intro n
  induction n with
  | zero => intro r; rfl
  | succ n ih => intro r; simp [mkRocketTrails, ih]

theorem mkExplosionTrails_length (cfg : Config R) (pos vel : Vec3 R)
    (color : Vec4 R) : ∀ (n : ℕ) (r : RState),
    ((mkExplosionTrails cfg pos vel color n r).1).length = n := by
  intro n
  induction n with
  | zero => intro r; rfl
  | succ n ih => intro r; simp [mkExplosionTrails, ih]

theorem mkExplosionParticles_length (cfg : Config R) (env : Env R)
    (pos : Vec3 R) (color : Vec4 R) : ∀ (n : ℕ) (r : RState),
    ((mkExplosionParticles cfg env pos color n r).1).length = n := by
  intro n
  induction n with
  | zero => intro r; rfl
  | succ n ih => intro r; simp [mkExplosionParticles, ih]

theorem mkFireworks_length (cfg : Config R) : ∀ (n : ℕ) (r : RState),
    ((mkFireworks cfg n r).1).length = n := by
  intro n
  induction n with
  | zero => intro r; rfl
  | succ n ih => intro r; simp [mkFireworks, ih]

theorem initFireworks_length (cfg : Config R) (r : RState) :
    ((initFireworks cfg r).1).length = cfg.NUM_FIREWORKS :=
  mkFireworks_length cfg cfg.NUM_FIREWORKS r

theorem fireworkTrailLoop_length (fw : Firework R) (dt : R) :
    ∀ (ps : List (TrailParticle R)) (r : RState),
    ((fw.updateTrailLoop dt ps r).1).length = ps.length := by
  intro ps
  induction ps with
  | nil => intro r; rfl
  | cons p ps ih => intro r; simp [Firework.updateTrailLoop, ih]

theorem explosionTrailLoop_length (ep : ExplosionParticle R) (dt : R) :
    ∀ (ps : List (TrailParticle R)) (r : RState),
    ((ep.updateTrailLoop dt ps r).1).length = ps.length := by
  intro ps
  induction ps with
  | nil => intro r; rfl
  | cons p ps ih => intro r; simp [ExplosionParticle.updateTrailLoop, ih]

theorem updateExplosionLoop_length (cfg : Config R) (dt : R) :
    ∀ (ps : List (ExplosionParticle R)) (r : RState),
    ((updateExplosionLoop cfg dt ps r).1).length = ps.length := by
  intro ps
  induction ps with
  | nil => intro r; rfl
  | cons p ps ih => intro r; simp [updateExplosionLoop, ih]

/-- Shape of a freshly reset firework. -/
theorem reset_shape (cfg : Config R) (r : RState) :
    (Firework.reset cfg r).1.exploded = false
  ∧ ((Firework.reset cfg r).1.trailParticles).length = cfg.NUM_TRAIL_PARTICLES
  ∧ (Firework.reset cfg r).1.explosionParticles = []
  ∧ cfg.MIN_PARTICLES ≤ (Firework.reset cfg r).1.numParticles := by
  refine ⟨rfl, ?_, rfl, ?_⟩
  · simp [Firework.reset, mkRocketTrails_length]
  · simp [Firework.reset]

@[simp]
theorem Vec3.add_x (a b : Vec3 R) : (a + b).x = a.x + b.x := rfl

@[simp]
theorem Vec3.add_y (a b : Vec3 R) : (a + b).y = a.y + b.y := rfl

@[simp]
theorem Vec3.add_z (a b : Vec3 R) : (a + b).z = a.z + b.z := rfl

@[simp]
theorem Vec3.muls_x (v : Vec3 R) (s : R) : (v * s).x = v.x * s := rfl

@[simp]
theorem Vec3.muls_y (v : Vec3 R) (s : R) : (v * s).y = v.y * s := rfl

@[simp]
theorem Vec3.muls_z (v : Vec3 R) (s : R) : (v * s).z = v.z * s := rfl

@[simp]
theorem Vec3.addScalar_x (v : Vec3 R) (s : R) : (v.addScalar s).x = v.x + s := rfl

@[simp]
theorem Vec3.addScalar_y (v : Vec3 R) (s : R) : (v.addScalar s).y = v.y + s := rfl

@[simp]
theorem Vec3.addScalar_z (v : Vec3 R) (s : R) : (v.addScalar s).z = v.z + s := rfl

/-- Unfolding of Firework.update in the rising branch. -/
theorem update_rising_eq (cfg : Config R) (env : Env R) (fw : Firework R)
    (dt : R) (r : RState) (h : fw.exploded = false) :
    Firework.update cfg env fw dt r =
      (let vel := fw.vel + cfg.GRAVITY * dt
       let pos := fw.pos + vel * dt
       let fw1 := { fw with vel := vel, pos := pos }
       let trails := fw1.updateTrailLoop dt fw.trailParticles r
       if vel.y < 0 then
         let eps := mkExplosionParticles cfg env pos fw.color fw.numParticles trails.2
         ({ fw1 with exploded := true, trailParticles := [],
                     explosionParticles := eps.1 }, eps.2)
       else ({ fw1 with trailParticles := trails.1 }, trails.2)) := by
  have hne : ¬ fw.exploded = true := by simp [h]
  simp only [Firework.update]
  rw [if_neg hne]

/-- Unfolding of Firework.update in the exploded branch. -/
theorem update_exploded_eq (cfg : Config R) (env : Env R) (fw : Firework R)
    (dt : R) (r : RState) (h : fw.exploded = true) :
    Firework.update cfg env fw dt r =
      (let eps := updateExplosionLoop cfg dt fw.explosionParticles r
       if ∃ p ∈ eps.1, p.life ≤ 0 then Firework.reset cfg eps.2
       else ({ fw with explosionParticles := eps.1 }, eps.2)) := by
  simp only [Firework.update]
  rw [if_pos h]

/-- In the rising branch the vertical velocity is always integrated by
gravity, whether or not the apex is reached. -/
theorem update_rising_velY (cfg : Config R) (env : Env R) (fw : Firework R)
    (dt : R) (r : RState) (h : fw.exploded = false) :
    (Firework.update cfg env fw dt r).1.vel.y = fw.vel.y + cfg.GRAVITY.y * dt := by
  rw [update_rising_eq cfg env fw dt r h]
  dsimp only
  split_ifs with hv <;> rfl

/-- In the rising branch the particle count target is never modified. -/
theorem update_rising_numParticles (cfg : Config R) (env : Env R)
    (fw : Firework R) (dt : R) (r : RState) (h : fw.exploded = false) :
    (Firework.update cfg env fw dt r).1.numParticles = fw.numParticles := by
  rw [update_rising_eq cfg env fw dt r h]
  dsimp only
  split_ifs with hv <;> rfl

/-- In the rising branch the position is integrated with the new velocity. -/
theorem update_rising_pos (cfg : Config R) (env : Env R) (fw : Firework R)
    (dt : R) (r : RState) (h : fw.exploded = false) :
    (Firework.update cfg env fw dt r).1.pos
      = fw.pos + (fw.vel + cfg.GRAVITY * dt) * dt := by
  rw [update_rising_eq cfg env fw dt r h]
  dsimp only
  split_ifs with hv <;> rfl

/-- The rocket explodes exactly when the integrated vertical velocity has
become negative. -/
theorem update_rising_exploded_iff (cfg : Config R) (env : Env R)
    (fw : Firework R) (dt : R) (r : RState) (h : fw.exploded = false) :
    ((Firework.update cfg env fw dt r).1.exploded = true
      ↔ fw.vel.y + cfg.GRAVITY.y * dt < 0) := by
  rw [update_rising_eq cfg env fw dt r h]
  dsimp only
  split_ifs with hv
  · simpa using hv
  · simp only [h]
    simpa using hv

/-- Below the apex: no explosion, the explosion collection is untouched,
the trail collection keeps its size and the colour is kept. -/
theorem update_rising_no_apex (cfg : Config R) (env : Env R)
    (fw : Firework R) (dt : R) (r : RState) (h : fw.exploded = false)
    (h2 : 0 ≤ fw.vel.y + cfg.GRAVITY.y * dt) :
    (Firework.update cfg env fw dt r).1.exploded = false
  ∧ (Firework.update cfg env fw dt r).1.explosionParticles = fw.explosionParticles
  ∧ ((Firework.update cfg env fw dt r).1.trailParticles).length
      = fw.trailParticles.length := by
  have hv : ¬ (fw.vel + cfg.GRAVITY * dt).y < 0 := by simpa using not_lt.mpr h2
  rw [update_rising_eq cfg env fw dt r h]
  dsimp only
  rw [if_neg hv]
  exact ⟨h, rfl, fireworkTrailLoop_length _ _ _ _⟩

/-- At the apex: the rocket explodes, the trail is cleared and the
explosion collection is produced by the creation loop at the new rocket
position from some rand() state. -/
theorem update_rising_apex (cfg : Config R) (env : Env R) (fw : Firework R)
    (dt : R) (r : RState) (h : fw.exploded = false)
    (h2 : fw.vel.y + cfg.GRAVITY.y * dt < 0) :
    (Firework.update cfg env fw dt r).1.exploded = true
  ∧ (Firework.update cfg env fw dt r).1.trailParticles = []
  ∧ ∃ r1 : RState,
      (Firework.update cfg env fw dt r).1.explosionParticles
        = (mkExplosionParticles cfg env
            (fw.pos + (fw.vel + cfg.GRAVITY * dt) * dt) fw.color
            fw.numParticles r1).1 := by
  have hv : (fw.vel + cfg.GRAVITY * dt).y < 0 := by simpa using h2
  rw [update_rising_eq cfg env fw dt r h]
  dsimp only
  rw [if_pos hv]
  exact ⟨rfl, rfl, _, rfl⟩

/-- Unfolding of the exploded branch when some updated particle expired:
the whole firework is reset. -/
theorem update_exploded_reset (cfg : Config R) (env : Env R)
    (fw : Firework R) (dt : R) (r : RState) (h : fw.exploded = true)
    (h2 : ∃ p ∈ (updateExplosionLoop cfg dt fw.explosionParticles r).1, p.life ≤ 0) :
    Firework.update cfg env fw dt r
      = Firework.reset cfg (updateExplosionLoop cfg dt fw.explosionParticles r).2 := by
  rw [update_exploded_eq cfg env fw dt r h]
  dsimp only
  rw [if_pos h2]

/-- Unfolding of the exploded branch when no updated particle expired. -/
theorem update_exploded_no_expiry (cfg : Config R) (env : Env R)
    (fw : Firework R) (dt : R) (r : RState) (h : fw.exploded = true)
    (h2 : ¬ ∃ p ∈ (updateExplosionLoop cfg dt fw.explosionParticles r).1, p.life ≤ 0) :
    Firework.update cfg env fw dt r
      = ({ fw with explosionParticles := (updateExplosionLoop cfg dt fw.explosionParticles r).1 },
         (updateExplosionLoop cfg dt fw.explosionParticles r).2) := by
  rw [update_exploded_eq cfg env fw dt r h]
  dsimp only
  rw [if_neg h2]

theorem steps_append (cfg : Config R) (env : Env R) :
    ∀ (l1 l2 : List R) (fw : Firework R) (r : RState),
    Firework.steps cfg env (l1 ++ l2) fw r
      = Firework.steps cfg env l2 (Firework.steps cfg env l1 fw r).1
          (Firework.steps cfg env l1 fw r).2 := by
  intro l1
  induction l1 with
  | nil => intro l2 fw r; rfl
  | cons dt l1 ih => intro l2 fw r; simp [Firework.steps, ih]

/-- The ratio rand() / RAND_MAX always lies in [0, 1]. -/
theorem unitRatio_bounds (F : Type) [LinearOrderedField F] (m : ℕ) (hm : m ≤ RAND_MAX) :
    0 ≤ (m : F) / (RAND_MAX : F) ∧ (m : F) / (RAND_MAX : F) ≤ 1 := by
  have hpos : (0 : F) < (RAND_MAX : F) := by norm_num [RAND_MAX]
  constructor
  · exact div_nonneg (by positivity) hpos.le
  · rw [div_le_one hpos]
    exact_mod_cast hm

/-- The jitter ((rand() % 100) - 50) / 10 always lies in [-5, 5]. -/
theorem jitter_bounds (F : Type) [LinearOrderedField F] (n : ℕ) :
    -5 ≤ ((((n % 100 : ℕ) : F) - 50) / 10)
  ∧ ((((n % 100 : ℕ) : F) - 50) / 10) ≤ 5 := by
  have h0 : (0 : F) ≤ ((n % 100 : ℕ) : F) := by positivity
  have h99 : ((n % 100 : ℕ) : F) ≤ 99 := by
    have hlt : n % 100 < 100 := Nat.mod_lt _ (by norm_num)
    exact_mod_cast Nat.lt_succ_iff.mp hlt
  constructor
  · rw [le_div_iff₀ (by norm_num : (0 : F) < 10)]
    linarith
  · rw [div_le_iff₀ (by norm_num : (0 : F) < 10)]
    linarith

/-- Every rocket trail particle is created with scale 1. -/
theorem mkRocketTrails_scales (cfg : Config R) (pos vel : Vec3 R)
    (color : Vec4 R) : ∀ (n : ℕ) (r : RState),
    ((mkRocketTrails cfg pos vel color n r).1).map TrailParticle.scale
      = List.replicate n 1 := by
  intro n
  induction n with
  | zero => intro r; rfl
  | succ n ih =>
      intro r
      simp [mkRocketTrails, TrailParticle.create, ih, List.replicate_succ]

/-- Every explosion trail particle is created with scale 1. -/
theorem mkExplosionTrails_scales (cfg : Config R) (pos vel : Vec3 R)
    (color : Vec4 R) : ∀ (n : ℕ) (r : RState),
    ((mkExplosionTrails cfg pos vel color n r).1).map TrailParticle.scale
      = List.replicate n 1 := by
  intro n
  induction n with
  | zero => intro r; rfl
  | succ n ih =>
      intro r
      simp [mkExplosionTrails, TrailParticle.create, ih, List.replicate_succ]

/-- Structure of every particle built by the explosion creation loop:
owner position and colour, a scale sampled from the configured range, and
a velocity on one of the equally spaced directions scaled by an integer
magnitude from the configured range. -/
theorem mkExplosionParticles_mem (cfg : Config R) (env : Env R)
    (pos : Vec3 R) (color : Vec4 R)
    (hvtx : 0 < cfg.NUM_OUTER_CIRCLE_VERTICES)
    (hscale : 0 < cfg.SCALE_RANGE)
    (hmag : 0 < cfg.MAX_MAGNITUDE - cfg.MIN_MAGNITUDE) :
    ∀ (n : ℕ) (r : RState),
    ∀ ep ∈ (mkExplosionParticles cfg env pos color n r).1,
      ep.pos = pos ∧ ep.color = color
    ∧ (∃ s : ℕ, s < cfg.SCALE_RANGE ∧ ep.scale = (s : R) + cfg.MIN_SCALE)
    ∧ (∃ k : ℕ, k < cfg.NUM_OUTER_CIRCLE_VERTICES
        ∧ ∃ mag : ℤ, cfg.MIN_MAGNITUDE ≤ mag ∧ mag < cfg.MAX_MAGNITUDE
        ∧ ep.vel = ⟨env.cos ((k : R) * (env.pi * 2 / (cfg.NUM_OUTER_CIRCLE_VERTICES : R))) * (mag : R),
                    env.sin ((k : R) * (env.pi * 2 / (cfg.NUM_OUTER_CIRCLE_VERTICES : R))) * (mag : R),
                    0⟩) := by
  intro n
  induction n with
  | zero => intro r ep hmem; cases hmem
  | succ n ih =>
      intro r ep hmem
      rw [mkExplosionParticles] at hmem
      rcases List.mem_cons.mp hmem with hhead | htail
      · subst hhead
        have h1 : 0 ≤ (r.next.2.next.1 : ℤ) % (cfg.MAX_MAGNITUDE - cfg.MIN_MAGNITUDE) :=
          Int.emod_nonneg _ (by omega)
        have h2 : (r.next.2.next.1 : ℤ) % (cfg.MAX_MAGNITUDE - cfg.MIN_MAGNITUDE)
            < cfg.MAX_MAGNITUDE - cfg.MIN_MAGNITUDE := Int.emod_lt_of_pos _ hmag
        refine ⟨rfl, rfl, ?_, ?_⟩
        · exact ⟨_, Nat.mod_lt _ hscale, rfl⟩
        · refine ⟨_, Nat.mod_lt _ hvtx, _, ?_, ?_, rfl⟩
          · omega
          · omega
      · exact ih _ ep htail

/-- A reset firework is in a legal shape. -/
theorem reset_good (r : RState) :
    GoodFirework (Firework.reset (srcConfig : Config ℚ) r).1 := by
  obtain ⟨he, hl, hex, hnp⟩ := reset_shape (srcConfig : Config ℚ) r
  left
  refine ⟨he, ?_, hex, ?_⟩
  · intro hnil
    rw [hnil] at hl
    simp [srcConfig] at hl
  · have h30 : (30 : ℕ) ≤ (Firework.reset (srcConfig : Config ℚ) r).1.numParticles := by
      simpa [srcConfig] using hnp
    omega

/-- One update keeps a firework in a legal shape. -/
theorem update_good (env : Env ℚ) (fw : Firework ℚ) (dt : ℚ) (r : RState)
    (hg : GoodFirework fw) :
    GoodFirework (Firework.update (srcConfig : Config ℚ) env fw dt r).1 := by
  rcases hg with ⟨he, htp, hep, hnp⟩ | ⟨he, htp, hep⟩
  · by_cases hv : fw.vel.y + (srcConfig : Config ℚ).GRAVITY.y * dt < 0
    · obtain ⟨hex, htr, r1, heq⟩ :=
        update_rising_apex (srcConfig : Config ℚ) env fw dt r he hv
      right
      refine ⟨hex, htr, ?_⟩
      intro hnil
      have hlen := mkExplosionParticles_length (srcConfig : Config ℚ) env
        (fw.pos + (fw.vel + (srcConfig : Config ℚ).GRAVITY * dt) * dt) fw.color
        fw.numParticles r1
      rw [← heq, hnil] at hlen
      have hnp2 := update_rising_numParticles (srcConfig : Config ℚ) env fw dt r he
      simp at hlen
      omega
    · obtain ⟨hex, hepeq, hlen⟩ :=
        update_rising_no_apex (srcConfig : Config ℚ) env fw dt r he (not_lt.mp hv)
      left
      refine ⟨hex, ?_, by rw [hepeq, hep], ?_⟩
      · intro hnil
        rw [hnil] at hlen
        exact htp (List.length_eq_zero.mp hlen.symm)
      · rw [update_rising_numParticles (srcConfig : Config ℚ) env fw dt r he]
        exact hnp
  · by_cases hx : ∃ p ∈ (updateExplosionLoop (srcConfig : Config ℚ) dt fw.explosionParticles r).1,
        p.life ≤ 0
    · rw [update_exploded_reset (srcConfig : Config ℚ) env fw dt r he hx]
      exact reset_good _
    · rw [update_exploded_no_expiry (srcConfig : Config ℚ) env fw dt r he hx]
      right
      refine ⟨he, htp, ?_⟩
      intro hnil
      dsimp only at hnil
      have hlen := updateExplosionLoop_length (srcConfig : Config ℚ) dt fw.explosionParticles r
      rw [hnil] at hlen
      exact hep (List.length_eq_zero.mp hlen.symm)

/-- Any run of updates keeps a firework in a legal shape. -/
theorem steps_good (env : Env ℚ) : ∀ (dts : List ℚ) (fw : Firework ℚ) (r : RState),
    GoodFirework fw →
    GoodFirework (Firework.steps (srcConfig : Config ℚ) env dts fw r).1 := by
  intro dts
  induction dts with
  | nil => intro fw r hg; exact hg
  | cons dt dts ih =>
      intro fw r hg
      simp only [Firework.steps]
      exact ih _ _ (update_good env fw dt r hg)

/-- While the integrated vertical velocity stays nonnegative, dt = 1/10
steps under the source gravity only integrate the velocity: the rocket
does not explode, and the particle target and the explosion collection are
untouched.  The hypothesis 20 * k ≤ vel.y guarantees k such steps. -/
theorem rising_steps_const (env : Env ℚ) : ∀ (k : ℕ) (fw : Firework ℚ) (r : RState),
    fw.exploded = false → (20 : ℚ) * k ≤ fw.vel.y →
    (Firework.steps (srcConfig : Config ℚ) env (List.replicate k (1/10 : ℚ)) fw r).1.exploded = false
  ∧ (Firework.steps (srcConfig : Config ℚ) env (List.replicate k (1/10 : ℚ)) fw r).1.vel.y
      = fw.vel.y - 20 * k
  ∧ (Firework.steps (srcConfig : Config ℚ) env (List.replicate k (1/10 : ℚ)) fw r).1.numParticles
      = fw.numParticles
  ∧ (Firework.steps (srcConfig : Config ℚ) env (List.replicate k (1/10 : ℚ)) fw r).1.explosionParticles
      = fw.explosionParticles := by
  intro k
  induction k with
  | zero =>
      intro fw r h1 h2
      exact ⟨h1, by simp [Firework.steps], rfl, rfl⟩
  | succ k ih =>
      intro fw r h1 h2
      have hk0 : (0 : ℚ) ≤ (k : ℚ) := Nat.cast_nonneg k
      have h2' : (20 : ℚ) * ((k : ℚ) + 1) ≤ fw.vel.y := by push_cast at h2; linarith
      have hgy : (srcConfig : Config ℚ).GRAVITY.y = -200 := rfl
      have hge : (0 : ℚ) ≤ fw.vel.y + (srcConfig : Config ℚ).GRAVITY.y * (1/10 : ℚ) := by
        rw [hgy]; linarith
      obtain ⟨hex, hepeq, _⟩ :=
        update_rising_no_apex (srcConfig : Config ℚ) env fw (1/10 : ℚ) r h1 hge
      have hvy : (Firework.update (srcConfig : Config ℚ) env fw (1/10 : ℚ) r).1.vel.y
          = fw.vel.y - 20 := by
        rw [update_rising_velY (srcConfig : Config ℚ) env fw (1/10 : ℚ) r h1, hgy]
        ring
      have hnp := update_rising_numParticles (srcConfig : Config ℚ) env fw (1/10 : ℚ) r h1
      have h2'' : (20 : ℚ) * (k : ℚ)
          ≤ (Firework.update (srcConfig : Config ℚ) env fw (1/10 : ℚ) r).1.vel.y := by
        rw [hvy]; linarith
      obtain ⟨ih1, ih2, ih3, ih4⟩ :=
        ih (Firework.update (srcConfig : Config ℚ) env fw (1/10 : ℚ) r).1
           (Firework.update (srcConfig : Config ℚ) env fw (1/10 : ℚ) r).2 hex h2''
      rw [List.replicate_succ]
      simp only [Firework.steps]
      refine ⟨ih1, ?_, ?_, ?_⟩
      · rw [ih2, hvy]; push_cast; ring
      · rw [ih3, hnp]
      · rw [ih4, hepeq]

/-- A single step is one update. -/
theorem steps_singleton (cfg : Config R) (env : Env R) (dt : R)
    (fw : Firework R) (r : RState) :
    Firework.steps cfg env [dt] fw r = Firework.update cfg env fw dt r :=
  rfl

/-! ### Claim theorems -/

/-- C1 counterexample: the claim that alpha equals life immediately after
every update is false.  For a concrete trail particle (life 1, decay rate
1) updated with dt = 1, and for a concrete explosion particle (life 1)
updated with dt = 1, the alpha channel written during the update differs
from the life value left after the final decay step. -/
theorem alpha_eq_life_counterexample :
    ¬ ((tpEx.update 1 ⟨0, 0, 0⟩ 1).color.w = (tpEx.update 1 ⟨0, 0, 0⟩ 1).life)
  ∧ ¬ ((ExplosionParticle.update (srcConfig : Config ℚ) epEx 1 rzero).1.color.w
        = (ExplosionParticle.update (srcConfig : Config ℚ) epEx 1 rzero).1.life) := by
  constructor
  · simp [tpEx, TrailParticle.update]
  · simp [epEx, ExplosionParticle.update, ExplosionParticle.updateTrailLoop, srcConfig]
    norm_num

/-- C1 (amended): both update rules write the alpha channel before the
final decay of life, so immediately after every update the alpha channel
equals the new life plus decayRate * dt (the life at the moment alpha was
assigned), not the new life itself. -/
theorem alpha_eq_life_plus_decay :
    (∀ (p : TrailParticle ℚ) (dt : ℚ) (sv : Vec3 ℚ) (sl : ℚ),
      (p.update dt sv sl).color.w = (p.update dt sv sl).life + p.lifeDecreaseRate * dt)
  ∧ (∀ (cfg : Config ℚ) (ep : ExplosionParticle ℚ) (dt : ℚ) (r : RState),
      (ExplosionParticle.update cfg ep dt r).1.color.w
        = (ExplosionParticle.update cfg ep dt r).1.life
          + cfg.EXPLOSION_LIFE_DECREASE_RATE * dt) := by
  constructor
  · intro p dt sv sl
    simp [TrailParticle.update]
  · intro cfg ep dt r
    simp [ExplosionParticle.update]

/-- C2: TrailParticle.update performs exactly the steps velocity :=
sourceVelocity; position += life * velocity * dt; clamp life to
sourceLife; alpha := life; life -= decayRate * dt, leaving every other
field unchanged; consequently the life at the moment of the clamp (the
published alpha) never exceeds the source life. -/
theorem trailUpdate_steps (p : TrailParticle ℚ) (dt : ℚ) (sv : Vec3 ℚ) (sl : ℚ) :
    (p.update dt sv sl).vel = sv
  ∧ (p.update dt sv sl).pos = p.pos + p.life * sv * dt
  ∧ (p.update dt sv sl).color.w = (if p.life > sl then sl else p.life)
  ∧ (p.update dt sv sl).life
      = (if p.life > sl then sl else p.life) - p.lifeDecreaseRate * dt
  ∧ (p.update dt sv sl).color.x = p.color.x
  ∧ (p.update dt sv sl).color.y = p.color.y
  ∧ (p.update dt sv sl).color.z = p.color.z
  ∧ (p.update dt sv sl).scale = p.scale
  ∧ (p.update dt sv sl).lifeDecreaseRate = p.lifeDecreaseRate
  ∧ (p.update dt sv sl).color.w ≤ sl := by
  refine ⟨rfl, rfl, rfl, rfl, rfl, rfl, rfl, rfl, rfl, ?_⟩
  show (if p.life > sl then sl else p.life) ≤ sl
  split_ifs with h
  · exact le_refl sl
  · exact not_lt.mp h

/-- C3: ExplosionParticle.update first runs the trail loop over the owned
trail particles, with the pre-self-update velocity and life of the owner
as the source snapshot (the loop preserves the trail count, respawning
expired particles in place), and only afterwards updates itself:
velocity := life * originalVelocity * dt, position += velocity,
alpha := life, life -= EXPLOSION_LIFE_DECREASE_RATE * dt, where life is
the pre-decay value throughout. -/
theorem explosionUpdate_order (cfg : Config ℚ) (ep : ExplosionParticle ℚ)
    (dt : ℚ) (r : RState) :
    (ExplosionParticle.update cfg ep dt r).1.trailParticles
      = (ep.updateTrailLoop dt ep.trailParticles r).1
  ∧ ((ep.updateTrailLoop dt ep.trailParticles r).1).length
      = ep.trailParticles.length
  ∧ (ExplosionParticle.update cfg ep dt r).1.vel = ep.life * ep.origVel * dt
  ∧ (ExplosionParticle.update cfg ep dt r).1.pos
      = ep.pos + ep.life * ep.origVel * dt
  ∧ (ExplosionParticle.update cfg ep dt r).1.color.w = ep.life
  ∧ (ExplosionParticle.update cfg ep dt r).1.life
      = ep.life - cfg.EXPLOSION_LIFE_DECREASE_RATE * dt
  ∧ (ExplosionParticle.update cfg ep dt r).2
      = (ep.updateTrailLoop dt ep.trailParticles r).2 :=
  ⟨rfl, explosionTrailLoop_length ep dt ep.trailParticles r, rfl, rfl, rfl, rfl, rfl⟩

/-- C4: the two respawn rules.  Rocket trail respawn: life := 1, position
:= firework position plus one scalar jitter in [-5, 5] added identically
to all axes, velocity := firework velocity times a factor in [0.75, 1].
Explosion trail respawn: life := 1, position := owner position plus the
same jitter formula, velocity := owner velocity times the fixed 0.1.  In
both cases the respawned position stays within the owner position plus or
minus the maximal jitter magnitude 5 on every axis. -/
theorem respawn_rules (fw : Firework ℚ) (p : TrailParticle ℚ) (r : RState)
    (ep : ExplosionParticle ℚ) (q : TrailParticle ℚ) (s : RState) :
    ((fw.respawnParticle p r).1.life = 1
      ∧ (∃ j : ℚ, -5 ≤ j ∧ j ≤ 5 ∧ (fw.respawnParticle p r).1.pos = fw.pos.addScalar j)
      ∧ (∃ c : ℚ, 3/4 ≤ c ∧ c ≤ 1 ∧ (fw.respawnParticle p r).1.vel = fw.vel * c)
      ∧ |(fw.respawnParticle p r).1.pos.x - fw.pos.x| ≤ 5
      ∧ |(fw.respawnParticle p r).1.pos.y - fw.pos.y| ≤ 5
      ∧ |(fw.respawnParticle p r).1.pos.z - fw.pos.z| ≤ 5)
  ∧ ((ep.respawnTrailParticle q s).1.life = 1
      ∧ (∃ j : ℚ, -5 ≤ j ∧ j ≤ 5 ∧ (ep.respawnTrailParticle q s).1.pos = ep.pos.addScalar j)
      ∧ (ep.respawnTrailParticle q s).1.vel = ep.vel * (1/10 : ℚ)
      ∧ |(ep.respawnTrailParticle q s).1.pos.x - ep.pos.x| ≤ 5
      ∧ |(ep.respawnTrailParticle q s).1.pos.y - ep.pos.y| ≤ 5
      ∧ |(ep.respawnTrailParticle q s).1.pos.z - ep.pos.z| ≤ 5) := by
  obtain ⟨hj1, hj2⟩ := jitter_bounds ℚ r.next.1
  obtain ⟨hc0, hc1⟩ := unitRatio_bounds ℚ r.next.2.next.1 (RState.next_le _)
  obtain ⟨hk1, hk2⟩ := jitter_bounds ℚ s.next.1
  constructor
  · refine ⟨rfl, ⟨_, hj1, hj2, rfl⟩, ⟨_, ?_, ?_, rfl⟩, ?_, ?_, ?_⟩
    · linarith
    · linarith
    all_goals
      dsimp only [Firework.respawnParticle]
      simp only [Vec3.addScalar_x, Vec3.addScalar_y, Vec3.addScalar_z,
        add_sub_cancel_left]
      exact abs_le.mpr ⟨hj1, hj2⟩
  · refine ⟨rfl, ⟨_, hk1, hk2, rfl⟩, rfl, ?_, ?_, ?_⟩
    all_goals
      dsimp only [ExplosionParticle.respawnTrailParticle]
      simp only [Vec3.addScalar_x, Vec3.addScalar_y, Vec3.addScalar_z,
        add_sub_cancel_left]
      exact abs_le.mpr ⟨hk1, hk2⟩

/-- C5: from a rising state, the update explodes exactly when the
integrated vertical velocity has become negative; on that transition the
trail is cleared and exactly numParticles explosion particles are created,
each positioned at the current rocket position, coloured like the
firework, with a freshly sampled scale (1 or 2 in the source
configuration), and a velocity that is the unit direction of one of the 50
equally spaced angles k * (2 pi / 50) scaled by an integer magnitude
within the configured range [20, 200]. -/
theorem apexTransition_spec (fw : Firework ℝ) (dt : ℝ) (r : RState)
    (h : fw.exploded = false) :
    ((Firework.update (srcConfig : Config ℝ) realEnv fw dt r).1.exploded = true
        ↔ fw.vel.y + (-200) * dt < 0)
  ∧ (fw.vel.y + (-200) * dt < 0 →
        (Firework.update (srcConfig : Config ℝ) realEnv fw dt r).1.trailParticles = []
      ∧ ((Firework.update (srcConfig : Config ℝ) realEnv fw dt r).1.explosionParticles).length
          = fw.numParticles
      ∧ ∀ ep ∈ (Firework.update (srcConfig : Config ℝ) realEnv fw dt r).1.explosionParticles,
            ep.pos = (Firework.update (srcConfig : Config ℝ) realEnv fw dt r).1.pos
          ∧ ep.color = fw.color
          ∧ (ep.scale = 1 ∨ ep.scale = 2)
          ∧ ∃ k : ℕ, k < 50 ∧ ∃ mag : ℤ, 20 ≤ mag ∧ mag ≤ 200
              ∧ ep.vel = ⟨Real.cos ((k : ℝ) * (Real.pi * 2 / 50)) * (mag : ℝ),
                          Real.sin ((k : ℝ) * (Real.pi * 2 / 50)) * (mag : ℝ), 0⟩) := by
  have hgy : (srcConfig : Config ℝ).GRAVITY.y = -200 := rfl
  constructor
  · have hiff := update_rising_exploded_iff (srcConfig : Config ℝ) realEnv fw dt r h
    rw [hgy] at hiff
    exact hiff
  · intro hv
    have hv' : fw.vel.y + (srcConfig : Config ℝ).GRAVITY.y * dt < 0 := by
      rw [hgy]; exact hv
    obtain ⟨hex, htr, r1, heq⟩ :=
      update_rising_apex (srcConfig : Config ℝ) realEnv fw dt r h hv'
    refine ⟨htr, ?_, ?_⟩
    · rw [heq]
      exact mkExplosionParticles_length _ _ _ _ _ _
    · intro ep hmem
      rw [heq] at hmem
      obtain ⟨hpos, hcol, ⟨sv, hslt, hseq⟩, k, hk, mag, hm1, hm2, hveq⟩ :=
        mkExplosionParticles_mem (srcConfig : Config ℝ) realEnv
          (fw.pos + (fw.vel + (srcConfig : Config ℝ).GRAVITY * dt) * dt) fw.color
          (by norm_num [srcConfig]) (by norm_num [srcConfig])
          (by norm_num [srcConfig]) fw.numParticles r1 ep hmem
      refine ⟨?_, hcol, ?_, ?_⟩
      · rw [update_rising_pos (srcConfig : Config ℝ) realEnv fw dt r h]
        exact hpos
      · have hs2 : sv < 2 := by simpa [srcConfig] using hslt
        interval_cases sv
        · left
          rw [hseq]
          norm_num [srcConfig]
        · right
          rw [hseq]
          norm_num [srcConfig]
      · refine ⟨k, by simpa [srcConfig] using hk, mag,
          by simpa [srcConfig] using hm1, ?_, ?_⟩
        · have hlt : mag < 200 := by simpa [srcConfig] using hm2
          omega
        · rw [hveq]
          norm_num [srcConfig, realEnv]

/-- C5 witness: the transition criterion instantiated at a concrete rising
rocket with vertical velocity 400 and dt = 1. -/
theorem apexTransition_spec_witness :
    ((Firework.update (srcConfig : Config ℝ) realEnv fwRocketR 1 rzero).1.exploded = true
      ↔ (400 : ℝ) + (-200) * 1 < 0) :=
  (apexTransition_spec fwRocketR 1 rzero rfl).1

/-- C6: while exploded, the expiry of a single updated explosion particle
suffices to reset the whole firework: afterwards the exploded flag is
down, the trail collection is freshly repopulated with the configured 15
particles (in particular nonempty), and the explosion collection is
empty. -/
theorem singleExpiry_resets (env : Env ℚ) (fw : Firework ℚ) (dt : ℚ) (r : RState)
    (h1 : fw.exploded = true)
    (h2 : ∃ p ∈ (updateExplosionLoop (srcConfig : Config ℚ) dt fw.explosionParticles r).1,
        p.life ≤ 0) :
    (Firework.update (srcConfig : Config ℚ) env fw dt r).1.exploded = false
  ∧ ((Firework.update (srcConfig : Config ℚ) env fw dt r).1.trailParticles).length = 15
  ∧ (Firework.update (srcConfig : Config ℚ) env fw dt r).1.trailParticles ≠ []
  ∧ (Firework.update (srcConfig : Config ℚ) env fw dt r).1.explosionParticles = [] := by
  rw [update_exploded_reset (srcConfig : Config ℚ) env fw dt r h1 h2]
  obtain ⟨he, hl, hex, _⟩ := reset_shape (srcConfig : Config ℚ)
    (updateExplosionLoop (srcConfig : Config ℚ) dt fw.explosionParticles r).2
  have hl15 : ((Firework.reset (srcConfig : Config ℚ)
      (updateExplosionLoop (srcConfig : Config ℚ) dt fw.explosionParticles r).2).1.trailParticles).length
      = 15 := by simpa [srcConfig] using hl
  refine ⟨he, hl15, ?_, hex⟩
  intro hnil
  rw [hnil] at hl15
  simp at hl15

/-- C6 witness: a concrete exploded firework owning a single exhausted
explosion particle is reset by one update. -/
theorem singleExpiry_resets_witness :
    (Firework.update (srcConfig : Config ℚ) envQ fwBurst 1 rzero).1.exploded = false
  ∧ ((Firework.update (srcConfig : Config ℚ) envQ fwBurst 1 rzero).1.trailParticles).length = 15
  ∧ (Firework.update (srcConfig : Config ℚ) envQ fwBurst 1 rzero).1.trailParticles ≠ []
  ∧ (Firework.update (srcConfig : Config ℚ) envQ fwBurst 1 rzero).1.explosionParticles = [] := by
  have hx : ∃ p ∈ (updateExplosionLoop (srcConfig : Config ℚ) 1 fwBurst.explosionParticles rzero).1,
      p.life ≤ 0 := by
    refine ⟨(ExplosionParticle.update (srcConfig : Config ℚ) epZero 1 rzero).1, ?_, ?_⟩
    · simp [fwBurst, updateExplosionLoop]
    · simp [ExplosionParticle.update, ExplosionParticle.updateTrailLoop, epZero, srcConfig]
  exact singleExpiry_resets envQ fwBurst 1 rzero rfl hx

/-- C7: starting from a reset and applying any sequence of updates, a
firework is always in exactly one of the two configurations: not exploded
with a nonempty trail collection and an empty explosion collection, or
exploded with an empty trail collection and a nonempty explosion
collection. -/
theorem mutualExclusion_after_reset (env : Env ℚ) (dts : List ℚ) (r : RState) :
    ((Firework.steps (srcConfig : Config ℚ) env dts
          (Firework.reset (srcConfig : Config ℚ) r).1
          (Firework.reset (srcConfig : Config ℚ) r).2).1.exploded = false
      ∧ (Firework.steps (srcConfig : Config ℚ) env dts
          (Firework.reset (srcConfig : Config ℚ) r).1
          (Firework.reset (srcConfig : Config ℚ) r).2).1.trailParticles ≠ []
      ∧ (Firework.steps (srcConfig : Config ℚ) env dts
          (Firework.reset (srcConfig : Config ℚ) r).1
          (Firework.reset (srcConfig : Config ℚ) r).2).1.explosionParticles = [])
  ∨ ((Firework.steps (srcConfig : Config ℚ) env dts
          (Firework.reset (srcConfig : Config ℚ) r).1
          (Firework.reset (srcConfig : Config ℚ) r).2).1.exploded = true
      ∧ (Firework.steps (srcConfig : Config ℚ) env dts
          (Firework.reset (srcConfig : Config ℚ) r).1
          (Firework.reset (srcConfig : Config ℚ) r).2).1.trailParticles = []
      ∧ (Firework.steps (srcConfig : Config ℚ) env dts
          (Firework.reset (srcConfig : Config ℚ) r).1
          (Firework.reset (srcConfig : Config ℚ) r).2).1.explosionParticles ≠ []) := by
  have hg := steps_good env dts (Firework.reset (srcConfig : Config ℚ) r).1
    (Firework.reset (srcConfig : Config ℚ) r).2 (reset_good r)
  rcases hg with ⟨a, b, c, _⟩ | hb
  · exact Or.inl ⟨a, b, c⟩
  · exact Or.inr hb

/-- C8 counterexample: the concrete scenario of the claim.  A rising
rocket with vertical velocity 400, ticked 20 times at dt = 1/10 under the
source gravity of -200, reaches vertical velocity exactly 0 (which is at
most 0), yet the firework has NOT exploded and its explosion collection is
still empty: the transition requires a strictly negative velocity, so 2.0
seconds of ticking do not trigger it. -/
theorem apexScenario_counterexample :
    fwRocket.exploded = false
  ∧ fwRocket.vel.y = 400
  ∧ (Firework.steps (srcConfig : Config ℚ) envQ (List.replicate 20 (1/10 : ℚ))
        fwRocket rzero).1.vel.y ≤ 0
  ∧ (Firework.steps (srcConfig : Config ℚ) envQ (List.replicate 20 (1/10 : ℚ))
        fwRocket rzero).1.exploded = false
  ∧ (Firework.steps (srcConfig : Config ℚ) envQ (List.replicate 20 (1/10 : ℚ))
        fwRocket rzero).1.explosionParticles = [] := by
  obtain ⟨h1, h2, h3, h4⟩ := rising_steps_const envQ 20 fwRocket rzero rfl
    (by norm_num [fwRocket])
  refine ⟨rfl, rfl, ?_, h1, h4.trans rfl⟩
  rw [h2]
  norm_num [fwRocket]

/-- C8 (amended): for any rising firework with vertical velocity 400 under
the source gravity of -200, 20 steps at dt = 1/10 bring the vertical
velocity to at most 0 (exactly 0) without triggering the transition, since
the trigger requires a strictly negative velocity; the 21st step makes the
velocity negative, the transition fires, and the explosion collection size
equals the numParticles value sampled at the prior reset. -/
theorem apexScenario_amended (env : Env ℚ) (fw : Firework ℚ) (r : RState)
    (h1 : fw.exploded = false) (h2 : fw.vel.y = 400) :
    (Firework.steps (srcConfig : Config ℚ) env (List.replicate 20 (1/10 : ℚ)) fw r).1.vel.y ≤ 0
  ∧ (Firework.steps (srcConfig : Config ℚ) env (List.replicate 20 (1/10 : ℚ)) fw r).1.exploded = false
  ∧ (Firework.steps (srcConfig : Config ℚ) env (List.replicate 21 (1/10 : ℚ)) fw r).1.exploded = true
  ∧ ((Firework.steps (srcConfig : Config ℚ) env (List.replicate 21 (1/10 : ℚ)) fw r).1.explosionParticles).length
      = fw.numParticles := by
  obtain ⟨s1, s2, s3, s4⟩ := rising_steps_const env 20 fw r h1 (by rw [h2]; norm_num)
  have hvy0 : (Firework.steps (srcConfig : Config ℚ) env (List.replicate 20 (1/10 : ℚ)) fw r).1.vel.y = 0 := by
    rw [s2, h2]
    norm_num
  have h21 : List.replicate 21 (1/10 : ℚ) = List.replicate 20 (1/10 : ℚ) ++ [(1/10 : ℚ)] := by
    rw [show (21 : ℕ) = 20 + 1 from rfl, List.replicate_succ']
  have hv : (Firework.steps (srcConfig : Config ℚ) env (List.replicate 20 (1/10 : ℚ)) fw r).1.vel.y
      + (srcConfig : Config ℚ).GRAVITY.y * (1/10 : ℚ) < 0 := by
    rw [hvy0, show (srcConfig : Config ℚ).GRAVITY.y = -200 from rfl]
    norm_num
  obtain ⟨hex, htr, r1, heq⟩ := update_rising_apex (srcConfig : Config ℚ) env
    (Firework.steps (srcConfig : Config ℚ) env (List.replicate 20 (1/10 : ℚ)) fw r).1 (1/10 : ℚ)
    (Firework.steps (srcConfig : Config ℚ) env (List.replicate 20 (1/10 : ℚ)) fw r).2 s1 hv
  refine ⟨le_of_eq hvy0, s1, ?_, ?_⟩
  · rw [h21, steps_append, steps_singleton]
    exact hex
  · rw [h21, steps_append, steps_singleton]
    rw [heq, mkExplosionParticles_length]
    exact s3

/-- C8 witness: the amended claim instantiated at the concrete rocket with
vertical velocity 400 and the all zero rand() stream. -/
theorem apexScenario_amended_witness :
    (Firework.steps (srcConfig : Config ℚ) envQ (List.replicate 20 (1/10 : ℚ)) fwRocket rzero).1.vel.y ≤ 0
  ∧ (Firework.steps (srcConfig : Config ℚ) envQ (List.replicate 20 (1/10 : ℚ)) fwRocket rzero).1.exploded = false
  ∧ (Firework.steps (srcConfig : Config ℚ) envQ (List.replicate 21 (1/10 : ℚ)) fwRocket rzero).1.exploded = true
  ∧ ((Firework.steps (srcConfig : Config ℚ) envQ (List.replicate 21 (1/10 : ℚ)) fwRocket rzero).1.explosionParticles).length
      = fwRocket.numParticles :=
  apexScenario_amended envQ fwRocket rzero rfl rfl

/-- C9 counterexample: a malformed configuration, with a particle count
range whose minimum exceeds its maximum and a non positive explosion decay
rate, does not make initialization fail: initFireworks runs to completion
and produces the full, nonempty list of 10 fireworks, because the source
performs no configuration validation at all. -/
theorem malformedConfig_counterexample :
    cfgBad.MAX_PARTICLES < cfgBad.MIN_PARTICLES
  ∧ cfgBad.EXPLOSION_LIFE_DECREASE_RATE ≤ 0
  ∧ ((initFireworks cfgBad rzero).1).length = 10
  ∧ (initFireworks cfgBad rzero).1 ≠ [] := by
  refine ⟨by norm_num [cfgBad, srcConfig], by norm_num [cfgBad, srcConfig], ?_, ?_⟩
  · rw [initFireworks_length]
    norm_num [cfgBad, srcConfig]
  · intro hnil
    have hlen := initFireworks_length cfgBad rzero
    rw [hnil] at hlen
    simp [cfgBad, srcConfig] at hlen

/-- C9 (amended): initialization performs no configuration validation and
cannot fail: for every configuration, malformed (particle range with min
above max, or non positive decay rate) or not, initFireworks succeeds and
produces exactly NUM_FIREWORKS fireworks. -/
theorem malformedConfig_no_failfast (cfg : Config ℚ) (r : RState)
    (h : cfg.MAX_PARTICLES < cfg.MIN_PARTICLES ∨ cfg.EXPLOSION_LIFE_DECREASE_RATE ≤ 0) :
    ((initFireworks cfg r).1).length = cfg.NUM_FIREWORKS :=
  initFireworks_length cfg r

/-- C9 witness: the amended claim at the concrete malformed
configuration. -/
theorem malformedConfig_no_failfast_witness :
    ((initFireworks cfgBad rzero).1).length = cfgBad.NUM_FIREWORKS :=
  malformedConfig_no_failfast cfgBad rzero (Or.inl (by norm_num [cfgBad, srcConfig]))

/-- C10: every trail particle is created with scale exactly 1 (at a
firework reset, in the ExplosionParticle constructor) and no operation
ever changes a trail particle's scale (neither the update rule nor either
respawn rule); the sampled scale range only ever reaches the firework
rocket and the ExplosionParticles. -/
theorem trailScale_one :
    (∀ (cfg : Config ℚ) (r : RState),
      ((Firework.reset cfg r).1.trailParticles).map TrailParticle.scale
        = List.replicate cfg.NUM_TRAIL_PARTICLES 1)
  ∧ (∀ (cfg : Config ℚ) (pos vel : Vec3 ℚ) (color : Vec4 ℚ) (scale : ℚ) (r : RState),
      ((ExplosionParticle.create cfg pos vel color scale r).1.trailParticles).map TrailParticle.scale
        = List.replicate cfg.NUM_TRAIL_PARTICLES 1)
  ∧ (∀ (p : TrailParticle ℚ) (dt : ℚ) (sv : Vec3 ℚ) (sl : ℚ),
      (p.update dt sv sl).scale = p.scale)
  ∧ (∀ (fw : Firework ℚ) (p : TrailParticle ℚ) (r : RState),
      (fw.respawnParticle p r).1.scale = p.scale)
  ∧ (∀ (ep : ExplosionParticle ℚ) (p : TrailParticle ℚ) (r : RState),
      (ep.respawnTrailParticle p r).1.scale = p.scale) := by
  refine ⟨?_, ?_, ?_, ?_, ?_⟩
  · intro cfg r
    exact mkRocketTrails_scales cfg _ _ _ cfg.NUM_TRAIL_PARTICLES _
  · intro cfg pos vel color scale r
    exact mkExplosionTrails_scales cfg pos vel color cfg.NUM_TRAIL_PARTICLES r
  · intro p dt sv sl
    rfl
  · intro fw p r
    rfl
  · intro ep p r
    rfl

end Fireworks

